import Mathlib

/-!
A verification development for the `mysql-slow-sql-webhook` agent
(`main.go`).  The program tails a MySQL slow-query log, groups lines into
entries, extracts fields with regular expressions, and posts a webhook
notification when the parsed query time reaches a configured threshold.

Modelling conventions:
* Go `float64` values are modelled as exact rationals (`ℚ`); the numeric
  strings captured by the patterns are plain decimals, which rationals
  represent exactly.
* Go strings are Lean `String`s; the pattern matching of package `regexp`
  (leftmost-first, Perl-style priority with greedy repetition) is embedded
  by a small backtracking engine returning candidate outcomes in priority
  order, specialised to the constructs the five patterns use: literals,
  single-character classes, greedy star/plus of a class, ordered
  alternation inside capture groups, and the end anchor.
* Side effects (the HTTP POST of a notification) are reified as values:
  `processSlowQuery` returns `some content` when it would send a
  notification and `none` otherwise; the tailing loop returns the list of
  entry buffers it passes to `processSlowQuery`.
-/

/-- A single-character matcher: a literal character or a character class. -/
inductive Atom where
  | lit : Char → Atom
  | cls : (Char → Bool) → Atom

/-- One element of a regular expression: an atom, a greedy `*` or `+` over a
character class, or the end-of-text anchor `$`. -/
inductive Elem where
  | atom : Atom → Elem
  | star : (Char → Bool) → Elem
  | plus : (Char → Bool) → Elem
  | eol  : Elem

/-- A token of a top-level pattern: a plain element or a numbered capture
group holding an ordered alternation of element sequences.  (None of the
program's patterns nest groups.) -/
inductive Tok where
  | el  : Elem → Tok
  | grp : Nat → List (List Elem) → Tok

/-- Does the atom accept the character? -/
def matchAtom : Atom → Char → Bool
  | .lit c, d => c == d
  | .cls f, d => f d

/-- Remainders after a greedy `*` over class `f`, in priority order
(longest consumed first), matching Perl/Go backtracking order. -/
def starRem (f : Char → Bool) : List Char → List (List Char)
  | [] => [[]]
  | c :: s => if f c then starRem f s ++ [c :: s] else [c :: s]

/-- All remainders of matching a sequence of elements against `s`, in
backtracking priority order. -/
def matchElems : List Elem → List Char → List (List Char)
  | [], s => [s]
  | .atom _ :: _, [] => []
  | .atom a :: rest, c :: s => if matchAtom a c then matchElems rest s else []
  | .star f :: rest, s => (starRem f s).flatMap (fun r => matchElems rest r)
  | .plus _ :: _, [] => []
  | .plus f :: rest, c :: s =>
      if f c then (starRem f s).flatMap (fun r => matchElems rest r) else []
  | .eol :: rest, s => if s.isEmpty then matchElems rest s else []

/-- Captured submatches: group index paired with the captured characters. -/
abbrev Captures := List (Nat × List Char)

/-- All `(captures, remainder)` outcomes of matching a token sequence
against `s`, in backtracking priority order (ordered alternation first,
greedy repetition longest first), i.e. Go `regexp`'s leftmost-first
semantics at a fixed start position. -/
def matchToks : List Tok → List Char → List (Captures × List Char)
  | [], s => [([], s)]
  | .el e :: rest, s =>
      (matchElems [e] s).flatMap (fun r => matchToks rest r)
  | .grp n alts :: rest, s =>
      alts.flatMap (fun alt =>
        (matchElems alt s).flatMap (fun r =>
          (matchToks rest r).map (fun cr =>
            ((n, s.take (s.length - r.length)) :: cr.1, cr.2))))

/-- The submatches of an anchored match starting at the head of `s`
(Go's behaviour for a pattern anchored with `^`). -/
def findAt (toks : List Tok) (s : List Char) : Option Captures :=
  (matchToks toks s).head?.map (fun cr => cr.1)

/-- The submatches of the leftmost match of an unanchored pattern:
positions are tried left to right, as `regexp.FindStringSubmatch` does. -/
def findSearch (toks : List Tok) (s : List Char) : Option Captures :=
  match findAt toks s with
  | some caps => some caps
  | none =>
      match s with
      | [] => none
      | _ :: s' => findSearch toks s'

/-- RE2 `\d`. -/
def isDigitC (c : Char) : Bool := 48 ≤ c.toNat && c.toNat ≤ 57

/-- RE2 `\s`, i.e. `[\t\n\f\r ]`. -/
def isSpaceC (c : Char) : Bool :=
  c == ' ' || c == '\t' || c == '\n' || c == '\r' || c == '\x0c'

/-- RE2 `\S`. -/
def isNonSpaceC (c : Char) : Bool := !isSpaceC c

/-- RE2 `.` (any character but newline). -/
def isAnyC (c : Char) : Bool := c != '\n'

/-- A literal string as a token sequence. -/
def litsT (s : String) : List Tok := s.data.map (fun c => .el (.atom (.lit c)))

/-- A case-insensitive literal word as an element sequence (for the `(?i)`
flag of `sqlQueryEndPattern`). -/
def ciWord (s : String) : List Elem :=
  s.data.map (fun c => .atom (.cls (fun d => d == c.toLower || d == c.toUpper)))

/-- The alternation `(\d+\.\d+|\d+)` capturing a decimal number. -/
def numAlts : List (List Elem) :=
  [[.plus isDigitC, .atom (.lit '.'), .plus isDigitC], [.plus isDigitC]]

/-- `queryStartPattern = ^# Time: \d{4}-\d{2}-\d{2}.*$` (from `main.go`). -/
def queryStartToks : List Tok :=
  litsT ("# Time: ") ++
    [.el (.atom (.cls isDigitC)), .el (.atom (.cls isDigitC)),
     .el (.atom (.cls isDigitC)), .el (.atom (.cls isDigitC)),
     .el (.atom (.lit '-')),
     .el (.atom (.cls isDigitC)), .el (.atom (.cls isDigitC)),
     .el (.atom (.lit '-')),
     .el (.atom (.cls isDigitC)), .el (.atom (.cls isDigitC)),
     .el (.star isAnyC), .el .eol]

/-- `queryTimePattern = # Query_time:\s*(\d+\.\d+|\d+)\s*Lock_time:\s*(\d+\.\d+|\d+)\s*Rows_sent:\s*(\d+)\s*Rows_examined:\s*(\d+)` (from `main.go`). -/
def queryTimeToks : List Tok :=
  litsT ("# Query_time:") ++
    [.el (.star isSpaceC), .grp 1 numAlts, .el (.star isSpaceC)] ++
  litsT ("Lock_time:") ++
    [.el (.star isSpaceC), .grp 2 numAlts, .el (.star isSpaceC)] ++
  litsT ("Rows_sent:") ++
    [.el (.star isSpaceC), .grp 3 [[.plus isDigitC]], .el (.star isSpaceC)] ++
  litsT ("Rows_examined:") ++
    [.el (.star isSpaceC), .grp 4 [[.plus isDigitC]]]

/-- `userHostPattern = # User@Host:\s*(\S+)\s*\[\S+\]\s*@\s*(\S+)` (from `main.go`). -/
def userHostToks : List Tok :=
  litsT ("# User@Host:") ++
    [.el (.star isSpaceC), .grp 1 [[.plus isNonSpaceC]], .el (.star isSpaceC),
     .el (.atom (.lit '[')), .el (.plus isNonSpaceC), .el (.atom (.lit ']')),
     .el (.star isSpaceC), .el (.atom (.lit '@')), .el (.star isSpaceC),
     .grp 2 [[.plus isNonSpaceC]]]

/-- `databasePattern = # Schema:\s*(\S+)` (from `main.go`). -/
def databaseToks : List Tok :=
  litsT ("# Schema:") ++ [.el (.star isSpaceC), .grp 1 [[.plus isNonSpaceC]]]

/-- `sqlQueryEndPattern = (?i)^(SELECT|UPDATE|DELETE|INSERT)\s+.*;$` (from `main.go`). -/
def sqlQueryEndToks : List Tok :=
  [.grp 1 [ciWord ("SELECT"), ciWord ("UPDATE"), ciWord ("DELETE"),
           ciWord ("INSERT")],
   .el (.plus isSpaceC), .el (.star isAnyC), .el (.atom (.lit ';')), .el .eol]

/-- `strconv.ParseFloat` on the strings captured by `(\d+\.\d+|\d+)`,
modelled exactly as a rational. -/
def digitsToNat (cs : List Char) : Nat :=
  cs.foldl (fun n c => 10 * n + (c.toNat - 48)) 0

/-- Parse a captured decimal (`\d+\.\d+` or `\d+`) as a rational: the
value `int.frac` is exactly `(int * 10^k + frac) / 10^k`. -/
def parseDecimal (cs : List Char) : ℚ :=
  match cs.span (fun c => c != '.') with
  | (intPart, []) => mkRat (digitsToNat intPart) 1
  | (intPart, _ :: fracPart) =>
      mkRat (digitsToNat intPart * 10 ^ fracPart.length + digitsToNat fracPart)
        (10 ^ fracPart.length)

/-- `strconv.Atoi` on the strings captured by `(\d+)`. -/
def atoiNat (cs : List Char) : Int := (digitsToNat cs : Int)

/-- Look up the characters captured by group `n` (empty if absent). -/
def capOf (caps : Captures) (n : Nat) : List Char :=
  match caps.lookup n with
  | some cs => cs
  | none => []

/-- The extraction `queryTimePattern.FindStringSubmatch` performs in
`processSlowQuery`: query time, lock time, rows sent, rows examined. -/
def queryTimeSubmatch (line : String) : Option (ℚ × ℚ × Int × Int) :=
  (findSearch queryTimeToks line.data).map (fun caps =>
    (parseDecimal (capOf caps 1), parseDecimal (capOf caps 2),
     atoiNat (capOf caps 3), atoiNat (capOf caps 4)))

/-- The extraction `userHostPattern.FindStringSubmatch` performs:
user and host. -/
def userHostSubmatch (line : String) : Option (String × String) :=
  (findSearch userHostToks line.data).map (fun caps =>
    (String.mk (capOf caps 1), String.mk (capOf caps 2)))

/-- The extraction `databasePattern.FindStringSubmatch` performs:
the schema name. -/
def databaseSubmatch (line : String) : Option String :=
  (findSearch databaseToks line.data).map (fun caps => String.mk (capOf caps 1))

/-- `queryStartPattern.MatchString` (anchored by `^`). -/
def queryStartMatches (line : String) : Bool :=
  (findAt queryStartToks line.data).isSome

/-- `sqlQueryEndPattern.MatchString` / `FindStringSubmatch ≠ nil`
(anchored by `^`). -/
def sqlQueryEndMatches (line : String) : Bool :=
  (findAt sqlQueryEndToks line.data).isSome

/-- The local variables of `processSlowQuery` after the extraction loop
(Go zero values as defaults). -/
structure ParsedEntry where
  queryTime : ℚ
  lockTime : ℚ
  rowsSent : Int
  rowsExamined : Int
  database : String
  user : String
  host : String
  sqlQuery : String
deriving Repr, DecidableEq

/-- The Go zero values the variables of `processSlowQuery` start from. -/
def ParsedEntry.zero : ParsedEntry :=
  { queryTime := 0, lockTime := 0, rowsSent := 0, rowsExamined := 0,
    database := "", user := "", host := "", sqlQuery := "" }

/-- One iteration of the extraction loop of `processSlowQuery`: the four
pattern blocks applied to a single line, in source order. -/
def updateEntry (e : ParsedEntry) (line : String) : ParsedEntry :=
  let e1 :=
    match queryTimeSubmatch line with
    | some m =>
        { e with queryTime := m.1, lockTime := m.2.1,
                 rowsSent := m.2.2.1, rowsExamined := m.2.2.2 }
    | none => e
  let e2 :=
    match userHostSubmatch line with
    | some m => { e1 with user := m.1, host := m.2 }
    | none => e1
  let e3 :=
    match databaseSubmatch line with
    | some d => { e2 with database := d }
    | none => e2
  if sqlQueryEndMatches line then { e3 with sqlQuery := line } else e3

/-- The extraction loop of `processSlowQuery` run from a given state. -/
def extractFieldsFrom (e : ParsedEntry) (logLines : List String) : ParsedEntry :=
  logLines.foldl updateEntry e

/-- The extraction loop of `processSlowQuery` over the lines of one entry. -/
def extractFields (logLines : List String) : ParsedEntry :=
  extractFieldsFrom ParsedEntry.zero logLines

/-- Go `%.2f` on a value modelled as a rational: round `q * 100` to the
nearest integer (ties to even) and print with exactly two fraction
digits.  Written over the numerator and denominator so it evaluates in
the kernel: `q * 100 = (q.num * 100) / q.den`, its floor is the
floor-division `fl`, and the fractional part compares to `1/2` as
`2 * rem` compares to `q.den`. -/
def formatQ2 (q : ℚ) : String :=
  let num : Int := q.num * 100
  let den : Int := (q.den : Int)
  let fl : Int := Int.fdiv num den
  let rem : Int := num - fl * den
  let rounded : Int :=
    if 2 * rem < den then fl
    else if den < 2 * rem then fl + 1
    else if fl % 2 = 0 then fl else fl + 1
  let sign := if rounded < 0 then "-" else ""
  let m := rounded.natAbs
  let frac := m % 100
  let fracStr := if frac < 10 then "0" ++ toString frac else toString frac
  sign ++ toString (m / 100) ++ "." ++ fracStr

/-- The `fmt.Sprintf` building the notification content in
`processSlowQuery` (the Go source is a raw string, so `\"` and `\n` are
literal two-character sequences). -/
def renderNotification (e : ParsedEntry) : String :=
  "<font color=\\\"warning\\\">**慢查询警告**</font>\\n" ++
  "> **查询时间:** <font color=\\\"warning\\\">" ++ formatQ2 e.queryTime ++
    " 秒</font>\\n" ++
  "> **锁定时间:** <font color=\\\"comment\\\">" ++ formatQ2 e.lockTime ++
    " 秒</font>\\n" ++
  "> **数据库:** <font color=\\\"comment\\\">" ++ e.database ++ "</font>\\n" ++
  "> **主机:** <font color=\\\"comment\\\">" ++ e.host ++ "</font>\\n" ++
  "> **用户:** <font color=\\\"comment\\\">" ++ e.user ++ "</font>\\n" ++
  "> **发送的行数:** <font color=\\\"comment\\\">" ++ toString e.rowsSent ++
    "</font>\\n" ++
  "> **扫描的行数:** <font color=\\\"comment\\\">" ++ toString e.rowsExamined ++
    "</font>\\n" ++
  "> **SQL 查询:** <font color=\\\"comment\\\">" ++ e.sqlQuery ++ "</font>\\n"

/-- `processSlowQuery` from `main.go`: extract the fields of one entry and,
when `queryTime >= slowQueryThreshold`, send one notification (reified as
`some content`); otherwise do nothing (`none`). -/
def processSlowQuery (slowQueryThreshold : ℚ) (logLines : List String) :
    Option String :=
  let e := extractFields logLines
  if e.queryTime ≥ slowQueryThreshold then
    some (renderNotification e)
  else
    none

/-- The fixed JSON template of `sendWebhookNotification` up to the `%s`
verb (a Go raw string: real newlines and tabs). -/
def payloadHead : String :=
  "\x7b\n\t\t\"msgtype\": \"markdown\",\n\t\t\"markdown\": \x7b\n\t\t\t\"content\": \""

/-- The fixed JSON template of `sendWebhookNotification` after the `%s`
verb. -/
def payloadTail : String := "\"\n\t\t\x7d\n\t\x7d"

/-- The request body `sendWebhookNotification` builds with `fmt.Sprintf`:
the content is substituted verbatim, with no JSON escaping. -/
def payload (content : String) : String :=
  payloadHead ++ content ++ payloadTail

/-- The single outbound HTTP request of `sendWebhookNotification`. -/
structure HttpPost where
  url : String
  contentType : String
  body : String
deriving Repr, DecidableEq

/-- `sendWebhookNotification` from `main.go`: exactly one POST with
`Content-Type: application/json` and the substituted template as body. -/
def sendWebhookNotification (webhookURL content : String) : HttpPost :=
  { url := webhookURL, contentType := "application/json",
    body := payload content }

/-- The body of the line-reading loop of `tailSlowLog` for one delivered
line: returns the new `logLines` buffer and the list of buffers passed to
`processSlowQuery` during the iteration, in call order.  Mirrors the Go
source: skip empty lines; on a start-marker match close a non-empty buffer
and reopen with the current line, otherwise append; on an end-marker match
process and clear the buffer; finally the (per-iteration) flush processes
any non-empty buffer without clearing it. -/
def tailSlowLogStep (logLines : List String) (text : String) :
    List String × List (List String) :=
  if text = "" then (logLines, [])
  else
    let startP := queryStartMatches text
    let buf1 := if startP then [text] else logLines ++ [text]
    let out1 : List (List String) :=
      if startP ∧ logLines.length > 0 then [logLines] else []
    let endP := sqlQueryEndMatches text
    let buf2 := if endP then [] else buf1
    let out2 := if endP then out1 ++ [buf1] else out1
    let out3 := if buf2.length > 0 then out2 ++ [buf2] else out2
    (buf2, out3)

/-- The line-reading loop of `tailSlowLog` over a finite stream of lines:
final buffer and all buffers passed to `processSlowQuery`, in order. -/
def tailSlowLogRun (logLines : List String) : List String → List String × List (List String)
  | [] => (logLines, [])
  | t :: ts =>
      let so := tailSlowLogStep logLines t
      let ro := tailSlowLogRun so.1 ts
      (ro.1, so.2 ++ ro.2)

/-- The notifications the pipeline of `tailSlowLog` emits on a finite
stream: every processed buffer is fed to `processSlowQuery`, which sends
at most one notification each. -/
def tailNotifications (slowQueryThreshold : ℚ) (lines : List String) :
    List String :=
  (tailSlowLogRun [] lines).2.filterMap (processSlowQuery slowQueryThreshold)

/-- What `main` does after flag parsing. -/
inductive MainAction where
  | usage : MainAction
  | testWebhook : MainAction
  | tailLoop : MainAction
deriving Repr, DecidableEq

/-- The dispatch of `main` in `main.go`: the `isTest` flag is parsed but
never consulted, so a non-empty webhook URL always enters the tailing
loop. -/
def mainDispatch (webhookURL : String) (isTest : Bool) : MainAction :=
  if webhookURL = "" then .usage else .tailLoop

/-- The dispatch of `main` in the earlier variant
(`src/unnamed/part_002`), which does consult `isTest` and sends the fixed
test webhook before exiting. -/
def mainDispatchPart002 (webhookURL : String) (isTest : Bool) : MainAction :=
  if webhookURL = "" then .usage
  else if isTest then .testWebhook
  else .tailLoop

/-- The concrete five-line scenario of spec section 8. -/
def scenarioLines : List String :=
  ["# Time: 2024-01-01T10:00:00",
   "# User@Host: app[app] @ 10.0.0.5",
   "# Query_time: 1.5  Lock_time: 0.1  Rows_sent: 3  Rows_examined: 500",
   "# Schema: orders",
   "SELECT * FROM orders;"]

/-- The effect of one line on the `queryTime` variable alone. -/
def qtUpd (q : ℚ) (line : String) : ℚ :=
  match queryTimeSubmatch line with
  | some m => m.1
  | none => q

/-- The effect of one line on the `lockTime` variable alone. -/
def ltUpd (q : ℚ) (line : String) : ℚ :=
  match queryTimeSubmatch line with
  | some m => m.2.1
  | none => q

/-- The effect of one line on the `rowsSent` variable alone. -/
def rsUpd (n : Int) (line : String) : Int :=
  match queryTimeSubmatch line with
  | some m => m.2.2.1
  | none => n

/-- The effect of one line on the `rowsExamined` variable alone. -/
def reUpd (n : Int) (line : String) : Int :=
  match queryTimeSubmatch line with
  | some m => m.2.2.2
  | none => n

/-- The effect of one line on the `user` variable alone. -/
def userUpd (u : String) (line : String) : String :=
  match userHostSubmatch line with
  | some m => m.1
  | none => u

/-- The effect of one line on the `host` variable alone. -/
def hostUpd (h : String) (line : String) : String :=
  match userHostSubmatch line with
  | some m => m.2
  | none => h

/-- The effect of one line on the `database` variable alone. -/
def dbUpd (d : String) (line : String) : String :=
  match databaseSubmatch line with
  | some v => v
  | none => d

/-- The effect of one line on the `sqlQuery` variable alone. -/
def sqlUpd (s : String) (line : String) : String :=
  if sqlQueryEndMatches line then line else s

/-- Is `c` a hexadecimal digit (for JSON `\uXXXX` escapes)? -/
def isHexC (c : Char) : Bool :=
  isDigitC c || (97 ≤ c.toNat && c.toNat ≤ 102) || (65 ≤ c.toNat && c.toNat ≤ 70)

/-- Is `c` a single-character JSON escape (after a backslash)? -/
def isEscC (c : Char) : Bool :=
  c == '"' || c == '\\' || c == '/' || c == 'b' || c == 'f' ||
  c == 'n' || c == 'r' || c == 't'

/-- Scan a JSON string literal after its opening quote: a quote ends the
literal and returns the rest of the input; a backslash must start a valid
escape (`\" \\ \/ \b \f \n \r \t` or `\uXXXX`); control characters must
be escaped; anything else is one ordinary character.  `none` on an
invalid or unterminated body. -/
def scanStrBody : List Char → Option (List Char)
  | [] => none
  | c :: rest =>
      if c == '"' then some rest
      else if c == '\\' then
        match rest with
        | [] => none
        | e :: rest2 =>
            if isEscC e then scanStrBody rest2
            else if e == 'u' then
              match rest2 with
              | h1 :: h2 :: h3 :: h4 :: rest3 =>
                  if isHexC h1 && isHexC h2 && isHexC h3 && isHexC h4 then
                    scanStrBody rest3
                  else none
              | _ => none
            else none
      else if decide (32 ≤ c.toNat) then scanStrBody rest else none

/-- Following the spec's words (the body is the JSON object
`{"msgtype":"markdown","markdown":{"content":"<rendered text>"}}`): is
the character sequence a valid JSON string body, i.e. may it stand
between the quotes of a JSON string literal?  Phrased with the scanner:
closing the sequence with a quote scans to exactly the end. -/
def validJsonBody (cs : List Char) : Bool :=
  scanStrBody (cs ++ ['"']) == some []

/-- Skip JSON whitespace. -/
def skipWs : List Char → List Char
  | [] => []
  | c :: s =>
      if c == ' ' || c == '\t' || c == '\n' || c == '\r' then skipWs s else c :: s

/-- Expect a literal character sequence at the head of the input. -/
def expectChars : List Char → List Char → Option (List Char)
  | [], s => some s
  | _ :: _, [] => none
  | p :: ps, c :: s => if p == c then expectChars ps s else none

/-- Expect a sequence of JSON tokens, each preceded by optional
whitespace. -/
def expectToks : List String → List Char → Option (List Char)
  | [], s => some s
  | t :: ts, s =>
      match expectChars t.data (skipWs s) with
      | some r => expectToks ts r
      | none => none

/-- The fixed JSON tokens of the claimed body, up to and including the
opening quote of the content string. -/
def jsonToksHead : List String :=
  ["\x7b", "\"msgtype\"", ":", "\"markdown\"", ",", "\"markdown\"", ":",
   "\x7b", "\"content\"", ":", "\""]

/-- After the content string: the two closing braces and nothing but
whitespace. -/
def parseTailPart (s : List Char) : Bool :=
  match expectToks ["\x7d", "\x7d"] s with
  | some s3 => skipWs s3 == []
  | none => false

/-- From the content string literal (opening quote already consumed)
onwards. -/
def parseContentPart (s : List Char) : Bool :=
  match scanStrBody s with
  | some s2 => parseTailPart s2
  | none => false

/-- Following the spec's words: does the string consist exactly of the
JSON object `{"msgtype":"markdown","markdown":{"content": <string>}}`,
with a valid JSON string literal in the content position and nothing
else?  The whitespace between tokens is arbitrary. -/
def parsePayload (s : List Char) : Bool :=
  match expectToks jsonToksHead s with
  | some s1 => parseContentPart s1
  | none => false

/-- Is the request body the well-formed JSON object the spec claims? -/
def wellFormedPayload (s : String) : Bool := parsePayload s.data

/-- The loop body of `tailSlowLog` as a transition relation, with one
constructor per control path of the Go source: skip blank lines;
a start-marker line closes a non-empty buffer and reopens with the line,
any other line is appended; an end-marker line processes and clears the
buffer; the trailing flush processes any buffer still non-empty.  Indices:
buffer before, line, buffer after, buffers passed to `processSlowQuery`. -/
inductive TailStep : List String → String → List String → List (List String) → Prop where
  | blank (buf : List String) (t : String) (h : t = "") :
      TailStep buf t buf []
  | startClosesEnds (buf : List String) (t : String) (hne : t ≠ "")
      (hs : queryStartMatches t = true) (hb : buf ≠ [])
      (he : sqlQueryEndMatches t = true) :
      TailStep buf t [] [buf, [t]]
  | startClosesCont (buf : List String) (t : String) (hne : t ≠ "")
      (hs : queryStartMatches t = true) (hb : buf ≠ [])
      (he : sqlQueryEndMatches t = false) :
      TailStep buf t [t] [buf, [t]]
  | startFreshEnds (buf : List String) (t : String) (hne : t ≠ "")
      (hs : queryStartMatches t = true) (hb : buf = [])
      (he : sqlQueryEndMatches t = true) :
      TailStep buf t [] [[t]]
  | startFreshCont (buf : List String) (t : String) (hne : t ≠ "")
      (hs : queryStartMatches t = true) (hb : buf = [])
      (he : sqlQueryEndMatches t = false) :
      TailStep buf t [t] [[t]]
  | appendEnds (buf : List String) (t : String) (hne : t ≠ "")
      (hs : queryStartMatches t = false)
      (he : sqlQueryEndMatches t = true) :
      TailStep buf t [] [buf ++ [t]]
  | appendCont (buf : List String) (t : String) (hne : t ≠ "")
      (hs : queryStartMatches t = false)
      (he : sqlQueryEndMatches t = false) :
      TailStep buf t (buf ++ [t]) [buf ++ [t]]

/-- A run of the `tailSlowLog` loop over a finite stream, as a relation:
indices are buffer before, stream, buffers passed to `processSlowQuery`
over the whole run (in call order). -/
inductive TailRun : List String → List String → List (List String) → Prop where
  | done (buf : List String) : TailRun buf [] []
  | step (buf : List String) (t : String) (ts : List String)
      (buf' : List String) (o o' : List (List String)) :
      TailStep buf t buf' o → TailRun buf' ts o' → TailRun buf (t :: ts) (o ++ o')

/-! ### Helper lemmas -/

/-- The three non-timing blocks of `updateEntry` leave `queryTime`
alone: one line's effect on `queryTime` is `qtUpd`. -/
theorem updateEntry_queryTime (e : ParsedEntry) (l : String) :
    (updateEntry e l).queryTime = qtUpd e.queryTime l := by
  unfold updateEntry qtUpd
  cases queryTimeSubmatch l <;> cases userHostSubmatch l <;>
    cases databaseSubmatch l <;> cases sqlQueryEndMatches l <;> rfl

/-- One line's effect on `lockTime` is `ltUpd`. -/
theorem updateEntry_lockTime (e : ParsedEntry) (l : String) :
    (updateEntry e l).lockTime = ltUpd e.lockTime l := by
  unfold updateEntry ltUpd
  cases queryTimeSubmatch l <;> cases userHostSubmatch l <;>
    cases databaseSubmatch l <;> cases sqlQueryEndMatches l <;> rfl

/-- One line's effect on `rowsSent` is `rsUpd`. -/
theorem updateEntry_rowsSent (e : ParsedEntry) (l : String) :
    (updateEntry e l).rowsSent = rsUpd e.rowsSent l := by
  unfold updateEntry rsUpd
  cases queryTimeSubmatch l <;> cases userHostSubmatch l <;>
    cases databaseSubmatch l <;> cases sqlQueryEndMatches l <;> rfl

/-- One line's effect on `rowsExamined` is `reUpd`. -/
theorem updateEntry_rowsExamined (e : ParsedEntry) (l : String) :
    (updateEntry e l).rowsExamined = reUpd e.rowsExamined l := by
  unfold updateEntry reUpd
  cases queryTimeSubmatch l <;> cases userHostSubmatch l <;>
    cases databaseSubmatch l <;> cases sqlQueryEndMatches l <;> rfl

/-- One line's effect on `user` is `userUpd`. -/
theorem updateEntry_user (e : ParsedEntry) (l : String) :
    (updateEntry e l).user = userUpd e.user l := by
  unfold updateEntry userUpd
  cases queryTimeSubmatch l <;> cases userHostSubmatch l <;>
    cases databaseSubmatch l <;> cases sqlQueryEndMatches l <;> rfl

/-- One line's effect on `host` is `hostUpd`. -/
theorem updateEntry_host (e : ParsedEntry) (l : String) :
    (updateEntry e l).host = hostUpd e.host l := by
  unfold updateEntry hostUpd
  cases queryTimeSubmatch l <;> cases userHostSubmatch l <;>
    cases databaseSubmatch l <;> cases sqlQueryEndMatches l <;> rfl

/-- One line's effect on `database` is `dbUpd`. -/
theorem updateEntry_database (e : ParsedEntry) (l : String) :
    (updateEntry e l).database = dbUpd e.database l := by
  unfold updateEntry dbUpd
  cases queryTimeSubmatch l <;> cases userHostSubmatch l <;>
    cases databaseSubmatch l <;> cases sqlQueryEndMatches l <;> rfl

/-- One line's effect on `sqlQuery` is `sqlUpd`. -/
theorem updateEntry_sqlQuery (e : ParsedEntry) (l : String) :
    (updateEntry e l).sqlQuery = sqlUpd e.sqlQuery l := by
  unfold updateEntry sqlUpd
  cases queryTimeSubmatch l <;> cases userHostSubmatch l <;>
    cases databaseSubmatch l <;> cases sqlQueryEndMatches l <;> rfl

/-- Field independence: the `queryTime` of the extraction loop is its
own fold over the lines. -/
theorem extractFieldsFrom_queryTime (lines : List String) :
    ∀ e : ParsedEntry,
      (extractFieldsFrom e lines).queryTime = lines.foldl qtUpd e.queryTime := by
  induction lines with
  | nil => intro e; rfl
  | cons l ls ih =>
      intro e
      simp only [extractFieldsFrom, List.foldl_cons] at *
      rw [ih, updateEntry_queryTime]

/-- Field independence for `lockTime`. -/
theorem extractFieldsFrom_lockTime (lines : List String) :
    ∀ e : ParsedEntry,
      (extractFieldsFrom e lines).lockTime = lines.foldl ltUpd e.lockTime := by
  induction lines with
  | nil => intro e; rfl
  | cons l ls ih =>
      intro e
      simp only [extractFieldsFrom, List.foldl_cons] at *
      rw [ih, updateEntry_lockTime]

/-- Field independence for `rowsSent`. -/
theorem extractFieldsFrom_rowsSent (lines : List String) :
    ∀ e : ParsedEntry,
      (extractFieldsFrom e lines).rowsSent = lines.foldl rsUpd e.rowsSent := by
  induction lines with
  | nil => intro e; rfl
  | cons l ls ih =>
      intro e
      simp only [extractFieldsFrom, List.foldl_cons] at *
      rw [ih, updateEntry_rowsSent]

/-- Field independence for `rowsExamined`. -/
theorem extractFieldsFrom_rowsExamined (lines : List String) :
    ∀ e : ParsedEntry,
      (extractFieldsFrom e lines).rowsExamined = lines.foldl reUpd e.rowsExamined := by
  induction lines with
  | nil => intro e; rfl
  | cons l ls ih =>
      intro e
      simp only [extractFieldsFrom, List.foldl_cons] at *
      rw [ih, updateEntry_rowsExamined]

/-- Field independence for `user`. -/
theorem extractFieldsFrom_user (lines : List String) :
    ∀ e : ParsedEntry,
      (extractFieldsFrom e lines).user = lines.foldl userUpd e.user := by
  induction lines with
  | nil => intro e; rfl
  | cons l ls ih =>
      intro e
      simp only [extractFieldsFrom, List.foldl_cons] at *
      rw [ih, updateEntry_user]

/-- Field independence for `host`. -/
theorem extractFieldsFrom_host (lines : List String) :
    ∀ e : ParsedEntry,
      (extractFieldsFrom e lines).host = lines.foldl hostUpd e.host := by
  induction lines with
  | nil => intro e; rfl
  | cons l ls ih =>
      intro e
      simp only [extractFieldsFrom, List.foldl_cons] at *
      rw [ih, updateEntry_host]

/-- Field independence for `database`. -/
theorem extractFieldsFrom_database (lines : List String) :
    ∀ e : ParsedEntry,
      (extractFieldsFrom e lines).database = lines.foldl dbUpd e.database := by
  induction lines with
  | nil => intro e; rfl
  | cons l ls ih =>
      intro e
      simp only [extractFieldsFrom, List.foldl_cons] at *
      rw [ih, updateEntry_database]

/-- Field independence for `sqlQuery`. -/
theorem extractFieldsFrom_sqlQuery (lines : List String) :
    ∀ e : ParsedEntry,
      (extractFieldsFrom e lines).sqlQuery = lines.foldl sqlUpd e.sqlQuery := by
  induction lines with
  | nil => intro e; rfl
  | cons l ls ih =>
      intro e
      simp only [extractFieldsFrom, List.foldl_cons] at *
      rw [ih, updateEntry_sqlQuery]

/-- A fold by a function that fixes every element of the list is the
identity. -/
theorem foldl_fix {α : Type} (f : α → String → α) (ls : List String)
    (h : ∀ l ∈ ls, ∀ b, f b l = b) : ∀ a, ls.foldl f a = a := by
  induction ls with
  | nil => intro a; rfl
  | cons l ls ih =>
      intro a
      simp only [List.foldl_cons]
      rw [h l (by simp), ih (fun l' hl' b => h l' (by simp [hl']) b)]

/-- Extending the input of a successful string-literal scan extends its
remainder. -/
theorem scanStrBody_append {s r : List Char} (extra : List Char)
    (h : scanStrBody s = some r) :
    scanStrBody (s ++ extra) = some (r ++ extra) := by
  induction s using scanStrBody.induct generalizing r with
  | case1 => simp [scanStrBody] at h
  | case2 c s hc =>
      simp only [List.cons_append]
      rw [scanStrBody.eq_def] at h ⊢
      simp [hc] at h ⊢
      simp [h]
  | case3 c hq hb => simp_all [scanStrBody]
  | case4 c hq hb c1 s hesc ih =>
      simp only [List.cons_append]
      rw [scanStrBody.eq_def] at h ⊢
      simp [hq, hb, hesc] at h ⊢
      exact ih h
  | case5 c hq hb c1 hne hu h1 h2 h3 h4 rest3 hhex ih =>
      simp_all [scanStrBody]
  | case6 c hq hb c1 hne hu h1 h2 h3 h4 rest3 hhex =>
      simp_all [scanStrBody]
  | case7 c hq hb c1 s hne hu hshape => simp_all [scanStrBody]
  | case8 c hq hb c1 s hne hnu =>
      simp only [List.cons_append]
      rw [scanStrBody.eq_def] at h
      simp [hq, hb, hne, hnu] at h
  | case9 c s hq hnb hge ih =>
      simp only [List.cons_append]
      rw [scanStrBody.eq_def] at h ⊢
      simp [hq, hnb, hge] at h ⊢
      exact ih h
  | case10 c s hq hnb hlt =>
      simp only [List.cons_append]
      rw [scanStrBody.eq_def] at h
      simp [hq, hnb, hlt] at h

/-- Every buffer a single loop iteration passes to `processSlowQuery` is
non-empty: the start-marker close and the flush are guarded by
non-emptiness checks, and the end-marker buffer contains the current
line. -/
theorem tailSlowLogStep_out_nonempty (buf : List String) (t : String) :
    ∀ e ∈ (tailSlowLogStep buf t).2, e ≠ [] := by
  intro e he
  unfold tailSlowLogStep at he
  by_cases ht : t = "" <;> simp [ht] at he
  · by_cases hs : queryStartMatches t <;>
      by_cases hn : buf.length > 0 <;>
      by_cases hq : sqlQueryEndMatches t <;>
      simp [hs, hn, hq] at he <;>
      rcases he with he | he <;> simp_all <;>
      intro hcon <;> simp [hcon] at *

/-- Every buffer a whole run passes to `processSlowQuery` is non-empty. -/
theorem tailSlowLogRun_out_nonempty (lines : List String) :
    ∀ (buf : List String), ∀ e ∈ (tailSlowLogRun buf lines).2, e ≠ [] := by
  induction lines with
  | nil => intro buf e he; simp [tailSlowLogRun] at he
  | cons t ts ih =>
      intro buf e he
      simp only [tailSlowLogRun, List.mem_append] at he
      rcases he with h | h
      · exact tailSlowLogStep_out_nonempty buf t e h
      · exact ih _ e h

/-- The loop-body relation is deterministic. -/
theorem tailStep_det {buf : List String} {t : String} {buf1 buf2 : List String}
    {o1 o2 : List (List String)} (h1 : TailStep buf t buf1 o1)
    (h2 : TailStep buf t buf2 o2) : buf1 = buf2 ∧ o1 = o2 := by
  cases h1 <;> cases h2 <;> simp_all

/-- The run relation is deterministic in its outputs. -/
theorem tailRun_det {buf ts o1} (h1 : TailRun buf ts o1) :
    ∀ {o2}, TailRun buf ts o2 → o1 = o2 := by
  induction h1 with
  | done _ => intro o2 h2; cases h2; rfl
  | step buf t ts buf' o o' hstep hrun ih =>
      intro o2 h2
      cases h2 with
      | step _ _ _ buf2 oa ob hstep2 hrun2 =>
          obtain ⟨hb, ho⟩ := tailStep_det hstep hstep2
          subst hb
          rw [ho, ih hrun2]

/-! ### The claims -/

set_option maxRecDepth 1000000
set_option maxHeartbeats 1000000

/-- C1: the claim says the pipeline emits exactly one notification per
complete entry with `queryTime >= threshold`, and exactly one for the
five-line section-8 scenario at threshold 0.5 (`mkRat 1 2`).  The code
emits three: the flush at the bottom of the `tailSlowLog` loop — whose
own comment says it is meant for the end of the stream — runs on every
iteration and re-processes the growing buffer after each line, so the
entry is processed (and, once the timing line has arrived, notified)
after its third and its fourth line, and the end-marker branch processes
the complete entry a third time. -/
theorem c1_scenario_three_notifications :
    (tailNotifications (mkRat 1 2) scenarioLines).length = 3 := by decide

/-- C2: parsing the five concrete scenario lines of section 8 yields
exactly queryTime 1.5 (`mkRat 3 2`), lockTime 0.1 (`mkRat 1 10`),
rowsSent 3, rowsExamined 500, database `orders`, user `app`, host
`10.0.0.5` and the SQL line as the query text. -/
theorem c2_scenario_fields :
    extractFields scenarioLines =
      { queryTime := mkRat 3 2, lockTime := mkRat 1 10, rowsSent := 3,
        rowsExamined := 500, database := "orders", user := "app",
        host := "10.0.0.5", sqlQuery := "SELECT * FROM orders;" } := by decide

/-- C3 is false as stated (first-match-wins): with two lines matching the
schema pattern, the parser records the value of the second, not the
first. -/
theorem c3_first_match_counterexample :
    databaseSubmatch ("# Schema: alpha") = some ("alpha") ∧
    databaseSubmatch ("# Schema: beta") = some ("beta") ∧
    ("alpha" : String) ≠ "beta" ∧
    (extractFields [("# Schema: alpha"), ("# Schema: beta")]).database = "beta" := by
  decide

/-- C3 amended: each extractor records the values of the LAST matching
line of the entry — every later match overwrites the earlier one
(last-match-wins), for all four extractors. -/
theorem c3_last_match_wins (pre post : List String) (l : String) :
    (∀ v, databaseSubmatch l = some v →
      (∀ l' ∈ post, databaseSubmatch l' = none) →
      (extractFields (pre ++ l :: post)).database = v) ∧
    (∀ m, queryTimeSubmatch l = some m →
      (∀ l' ∈ post, queryTimeSubmatch l' = none) →
      (extractFields (pre ++ l :: post)).queryTime = m.1 ∧
      (extractFields (pre ++ l :: post)).lockTime = m.2.1 ∧
      (extractFields (pre ++ l :: post)).rowsSent = m.2.2.1 ∧
      (extractFields (pre ++ l :: post)).rowsExamined = m.2.2.2) ∧
    (∀ m, userHostSubmatch l = some m →
      (∀ l' ∈ post, userHostSubmatch l' = none) →
      (extractFields (pre ++ l :: post)).user = m.1 ∧
      (extractFields (pre ++ l :: post)).host = m.2) ∧
    (sqlQueryEndMatches l = true →
      (∀ l' ∈ post, sqlQueryEndMatches l' = false) →
      (extractFields (pre ++ l :: post)).sqlQuery = l) := by
  refine ⟨?_, ?_, ?_, ?_⟩
  · intro v hv hnone
    rw [extractFields, extractFieldsFrom_database, List.foldl_append,
        List.foldl_cons,
        foldl_fix dbUpd post (fun l' hl' b => by simp [dbUpd, hnone l' hl'])]
    simp [dbUpd, hv]
  · intro m hm hnone
    refine ⟨?_, ?_, ?_, ?_⟩
    · rw [extractFields, extractFieldsFrom_queryTime, List.foldl_append,
          List.foldl_cons,
          foldl_fix qtUpd post (fun l' hl' b => by simp [qtUpd, hnone l' hl'])]
      simp [qtUpd, hm]
    · rw [extractFields, extractFieldsFrom_lockTime, List.foldl_append,
          List.foldl_cons,
          foldl_fix ltUpd post (fun l' hl' b => by simp [ltUpd, hnone l' hl'])]
      simp [ltUpd, hm]
    · rw [extractFields, extractFieldsFrom_rowsSent, List.foldl_append,
          List.foldl_cons,
          foldl_fix rsUpd post (fun l' hl' b => by simp [rsUpd, hnone l' hl'])]
      simp [rsUpd, hm]
    · rw [extractFields, extractFieldsFrom_rowsExamined, List.foldl_append,
          List.foldl_cons,
          foldl_fix reUpd post (fun l' hl' b => by simp [reUpd, hnone l' hl'])]
      simp [reUpd, hm]
  · intro m hm hnone
    refine ⟨?_, ?_⟩
    · rw [extractFields, extractFieldsFrom_user, List.foldl_append,
          List.foldl_cons,
          foldl_fix userUpd post (fun l' hl' b => by simp [userUpd, hnone l' hl'])]
      simp [userUpd, hm]
    · rw [extractFields, extractFieldsFrom_host, List.foldl_append,
          List.foldl_cons,
          foldl_fix hostUpd post (fun l' hl' b => by simp [hostUpd, hnone l' hl'])]
      simp [hostUpd, hm]
  · intro hm hnone
    rw [extractFields, extractFieldsFrom_sqlQuery, List.foldl_append,
        List.foldl_cons,
        foldl_fix sqlUpd post (fun l' hl' b => by simp [sqlUpd, hnone l' hl'])]
    simp [sqlUpd, hm]

/-- Witness for the amended C3 at a concrete duplicated-schema entry. -/
theorem c3_last_match_wins_witness :
    (extractFields ([("# Schema: alpha")] ++ ("# Schema: beta") :: [])).database
      = "beta" :=
  (c3_last_match_wins [("# Schema: alpha")] [] ("# Schema: beta")).1 ("beta")
    (by decide) (by decide)

/-- C4 is false as stated: an entry with no line matching the timing
pattern still reaches the threshold comparison — with threshold 0 it even
sends a notification, since the default `queryTime = 0` satisfies
`0 >= 0`. -/
theorem c4_no_timing_counterexample :
    (∀ l ∈ [("hello")], queryTimeSubmatch l = none) ∧
    (processSlowQuery 0 [("hello")]).isSome = true := by decide

/-- C4 amended: the threshold decision is made for EVERY processed entry,
including ones with no timing line; such entries keep the default
`queryTime = 0` and notify exactly when `0 >= threshold`. -/
theorem c4_threshold_always_evaluated (th : ℚ) (lines : List String)
    (h : ∀ l ∈ lines, queryTimeSubmatch l = none) :
    (extractFields lines).queryTime = 0 ∧
    ((processSlowQuery th lines).isSome = true ↔ (0 : ℚ) ≥ th) := by
  have hq : (extractFields lines).queryTime = 0 := by
    rw [extractFields, extractFieldsFrom_queryTime,
        foldl_fix qtUpd lines (fun l hl b => by simp [qtUpd, h l hl])]
    rfl
  refine ⟨hq, ?_⟩
  simp only [processSlowQuery, hq]
  by_cases hth : (0 : ℚ) ≥ th
  · simp [hth]
  · simp [hth]

/-- Witness for the amended C4 at a concrete timing-free entry and
threshold 1. -/
theorem c4_threshold_always_evaluated_witness :
    (∀ l ∈ [("hello world")], queryTimeSubmatch l = none) ∧
    ((extractFields [("hello world")]).queryTime = 0 ∧
      ((processSlowQuery 1 [("hello world")]).isSome = true ↔ (0 : ℚ) ≥ 1)) :=
  ⟨by decide, c4_threshold_always_evaluated 1 [("hello world")] (by decide)⟩

/-- C5: the claim says the test flag sends one fixed notification and
exits without tailing.  In `main.go` the `isTest` flag is parsed but
never consulted: with the flag set and a URL given, `main` still enters
the tailing loop and never reaches any test-notification code (none
exists in the file), contradicting the repository README and the flag's
own help text; the earlier variant (`src/unnamed/part_002`) implements
the claimed behaviour. -/
theorem c5_test_flag_ignored :
    mainDispatch ("https://example.com/hook") true = MainAction.tailLoop ∧
    mainDispatch ("https://example.com/hook") true ≠ MainAction.testWebhook ∧
    mainDispatchPart002 ("https://example.com/hook") true
      = MainAction.testWebhook := by decide

/-- C6: per processed entry the boundary comparison is `>=`: a query time
exactly equal to the threshold triggers the notification, and a query
time strictly below it yields none. -/
theorem c6_boundary_geq (th : ℚ) (lines : List String) :
    ((extractFields lines).queryTime = th →
      (processSlowQuery th lines).isSome = true) ∧
    ((extractFields lines).queryTime < th →
      processSlowQuery th lines = none) := by
  constructor
  · intro h
    simp only [processSlowQuery]
    rw [if_pos (le_of_eq h.symm)]
    rfl
  · intro h
    simp only [processSlowQuery]
    rw [if_neg (not_le.mpr h)]

/-- Witness for C6: the scenario entry (queryTime 1.5) notifies at the
equal threshold 1.5 and does not notify at threshold 2. -/
theorem c6_boundary_geq_witness :
    ((extractFields scenarioLines).queryTime = mkRat 3 2 ∧
      (processSlowQuery (mkRat 3 2) scenarioLines).isSome = true) ∧
    ((extractFields scenarioLines).queryTime < 2 ∧
      processSlowQuery 2 scenarioLines = none) :=
  ⟨⟨by decide, (c6_boundary_geq (mkRat 3 2) scenarioLines).1 (by decide)⟩,
   ⟨by decide, (c6_boundary_geq 2 scenarioLines).2 (by decide)⟩⟩

/-- C7: parsing never aborts (the extraction is a total function), and an
entry with no schema line yields `database = ""` while every other field
is still extracted by its own extractor's fold over the same lines
(field independence). -/
theorem c7_missing_schema_defaults (lines : List String)
    (h : ∀ l ∈ lines, databaseSubmatch l = none) :
    (extractFields lines).database = "" ∧
    (extractFields lines).queryTime = lines.foldl qtUpd 0 ∧
    (extractFields lines).lockTime = lines.foldl ltUpd 0 ∧
    (extractFields lines).rowsSent = lines.foldl rsUpd 0 ∧
    (extractFields lines).rowsExamined = lines.foldl reUpd 0 ∧
    (extractFields lines).user = lines.foldl userUpd "" ∧
    (extractFields lines).host = lines.foldl hostUpd "" ∧
    (extractFields lines).sqlQuery = lines.foldl sqlUpd "" := by
  refine ⟨?_, ?_, ?_, ?_, ?_, ?_, ?_, ?_⟩
  · rw [extractFields, extractFieldsFrom_database,
        foldl_fix dbUpd lines (fun l hl b => by simp [dbUpd, h l hl])]
    rfl
  · rw [extractFields, extractFieldsFrom_queryTime]
    rfl
  · rw [extractFields, extractFieldsFrom_lockTime]
    rfl
  · rw [extractFields, extractFieldsFrom_rowsSent]
    rfl
  · rw [extractFields, extractFieldsFrom_rowsExamined]
    rfl
  · rw [extractFields, extractFieldsFrom_user]
    rfl
  · rw [extractFields, extractFieldsFrom_host]
    rfl
  · rw [extractFields, extractFieldsFrom_sqlQuery]
    rfl

/-- Witness for C7: the scenario entry with its schema line removed. -/
theorem c7_missing_schema_defaults_witness :
    (∀ l ∈ [("# Time: 2024-01-01T10:00:00"),
            ("# User@Host: app[app] @ 10.0.0.5"),
            ("# Query_time: 1.5  Lock_time: 0.1  Rows_sent: 3  Rows_examined: 500"),
            ("SELECT * FROM orders;")], databaseSubmatch l = none) ∧
    ((extractFields [("# Time: 2024-01-01T10:00:00"),
            ("# User@Host: app[app] @ 10.0.0.5"),
            ("# Query_time: 1.5  Lock_time: 0.1  Rows_sent: 3  Rows_examined: 500"),
            ("SELECT * FROM orders;")]).database = "" ∧
      (extractFields [("# Time: 2024-01-01T10:00:00"),
            ("# User@Host: app[app] @ 10.0.0.5"),
            ("# Query_time: 1.5  Lock_time: 0.1  Rows_sent: 3  Rows_examined: 500"),
            ("SELECT * FROM orders;")]).queryTime
        = [("# Time: 2024-01-01T10:00:00"),
            ("# User@Host: app[app] @ 10.0.0.5"),
            ("# Query_time: 1.5  Lock_time: 0.1  Rows_sent: 3  Rows_examined: 500"),
            ("SELECT * FROM orders;")].foldl qtUpd 0 ∧
      (extractFields [("# Time: 2024-01-01T10:00:00"),
            ("# User@Host: app[app] @ 10.0.0.5"),
            ("# Query_time: 1.5  Lock_time: 0.1  Rows_sent: 3  Rows_examined: 500"),
            ("SELECT * FROM orders;")]).lockTime
        = [("# Time: 2024-01-01T10:00:00"),
            ("# User@Host: app[app] @ 10.0.0.5"),
            ("# Query_time: 1.5  Lock_time: 0.1  Rows_sent: 3  Rows_examined: 500"),
            ("SELECT * FROM orders;")].foldl ltUpd 0 ∧
      (extractFields [("# Time: 2024-01-01T10:00:00"),
            ("# User@Host: app[app] @ 10.0.0.5"),
            ("# Query_time: 1.5  Lock_time: 0.1  Rows_sent: 3  Rows_examined: 500"),
            ("SELECT * FROM orders;")]).rowsSent
        = [("# Time: 2024-01-01T10:00:00"),
            ("# User@Host: app[app] @ 10.0.0.5"),
            ("# Query_time: 1.5  Lock_time: 0.1  Rows_sent: 3  Rows_examined: 500"),
            ("SELECT * FROM orders;")].foldl rsUpd 0 ∧
      (extractFields [("# Time: 2024-01-01T10:00:00"),
            ("# User@Host: app[app] @ 10.0.0.5"),
            ("# Query_time: 1.5  Lock_time: 0.1  Rows_sent: 3  Rows_examined: 500"),
            ("SELECT * FROM orders;")]).rowsExamined
        = [("# Time: 2024-01-01T10:00:00"),
            ("# User@Host: app[app] @ 10.0.0.5"),
            ("# Query_time: 1.5  Lock_time: 0.1  Rows_sent: 3  Rows_examined: 500"),
            ("SELECT * FROM orders;")].foldl reUpd 0 ∧
      (extractFields [("# Time: 2024-01-01T10:00:00"),
            ("# User@Host: app[app] @ 10.0.0.5"),
            ("# Query_time: 1.5  Lock_time: 0.1  Rows_sent: 3  Rows_examined: 500"),
            ("SELECT * FROM orders;")]).user
        = [("# Time: 2024-01-01T10:00:00"),
            ("# User@Host: app[app] @ 10.0.0.5"),
            ("# Query_time: 1.5  Lock_time: 0.1  Rows_sent: 3  Rows_examined: 500"),
            ("SELECT * FROM orders;")].foldl userUpd "" ∧
      (extractFields [("# Time: 2024-01-01T10:00:00"),
            ("# User@Host: app[app] @ 10.0.0.5"),
            ("# Query_time: 1.5  Lock_time: 0.1  Rows_sent: 3  Rows_examined: 500"),
            ("SELECT * FROM orders;")]).host
        = [("# Time: 2024-01-01T10:00:00"),
            ("# User@Host: app[app] @ 10.0.0.5"),
            ("# Query_time: 1.5  Lock_time: 0.1  Rows_sent: 3  Rows_examined: 500"),
            ("SELECT * FROM orders;")].foldl hostUpd "" ∧
      (extractFields [("# Time: 2024-01-01T10:00:00"),
            ("# User@Host: app[app] @ 10.0.0.5"),
            ("# Query_time: 1.5  Lock_time: 0.1  Rows_sent: 3  Rows_examined: 500"),
            ("SELECT * FROM orders;")]).sqlQuery
        = [("# Time: 2024-01-01T10:00:00"),
            ("# User@Host: app[app] @ 10.0.0.5"),
            ("# Query_time: 1.5  Lock_time: 0.1  Rows_sent: 3  Rows_examined: 500"),
            ("SELECT * FROM orders;")].foldl sqlUpd "") :=
  ⟨by decide,
   c7_missing_schema_defaults
     [("# Time: 2024-01-01T10:00:00"),
      ("# User@Host: app[app] @ 10.0.0.5"),
      ("# Query_time: 1.5  Lock_time: 0.1  Rows_sent: 3  Rows_examined: 500"),
      ("SELECT * FROM orders;")] (by decide)⟩

/-- C8 is false as stated: `sendWebhookNotification` substitutes the
content into the JSON template verbatim, with no escaping, so a rendered
content containing a raw double quote — here rendered from an entry whose
SQL line carries a quoted string literal — yields a body that is NOT the
claimed well-formed JSON object. -/
theorem c8_payload_counterexample :
    wellFormedPayload (payload (renderNotification (extractFields
      [("# Query_time: 1 Lock_time: 0 Rows_sent: 1 Rows_examined: 1"),
       ("SELECT \"x\" FROM t;")]))) = false := by decide

/-- C8 amended: the dispatch sends exactly one POST with Content-Type
`application/json` whose body is the fixed markdown template with the
content substituted verbatim (no JSON escaping); the body is the
well-formed JSON object of the claim exactly when the content happens to
be a valid JSON string body. -/
theorem c8_payload_structure (url content : String) :
    (sendWebhookNotification url content).contentType = "application/json" ∧
    (sendWebhookNotification url content).body
      = payloadHead ++ content ++ payloadTail ∧
    (validJsonBody content.data = true →
      wellFormedPayload (payload content) = true) := by
  refine ⟨rfl, rfl, ?_⟩
  intro h
  have hscan : scanStrBody (content.data ++ ['"']) = some [] := by
    simpa [validJsonBody] using h
  have hmono := scanStrBody_append (("\n\t\t\x7d\n\t\x7d").data) hscan
  rw [List.append_assoc] at hmono
  simp only [List.nil_append, List.singleton_append] at hmono
  show parsePayload (payload content).data = true
  have hdata : (payload content).data
      = payloadHead.data ++ (content.data ++ payloadTail.data) := by
    simp [payload, List.append_assoc]
  rw [hdata]
  have hpre : expectToks jsonToksHead
      (payloadHead.data ++ (content.data ++ payloadTail.data))
      = some (content.data ++ payloadTail.data) := rfl
  unfold parsePayload
  rw [hpre]
  show parseContentPart (content.data ++ payloadTail.data) = true
  unfold parseContentPart
  have hsplit : content.data ++ payloadTail.data
      = content.data ++ '"' :: ("\n\t\t\x7d\n\t\x7d").data := rfl
  rw [hsplit, hmono]
  rfl

/-- Witness for the amended C8 at a concrete quote-free content (the
two-character sequence backslash-n is a valid JSON escape). -/
theorem c8_payload_structure_witness :
    validJsonBody ("SELECT * FROM orders\\n;").data = true ∧
    ((sendWebhookNotification ("https://example.com/hook")
        ("SELECT * FROM orders\\n;")).contentType = "application/json" ∧
      (sendWebhookNotification ("https://example.com/hook")
        ("SELECT * FROM orders\\n;")).body
        = payloadHead ++ ("SELECT * FROM orders\\n;") ++ payloadTail ∧
      (validJsonBody ("SELECT * FROM orders\\n;").data = true →
        wellFormedPayload (payload ("SELECT * FROM orders\\n;")) = true)) :=
  ⟨by decide,
   c8_payload_structure ("https://example.com/hook") ("SELECT * FROM orders\\n;")⟩

/-- C9: segmentation is deterministic and idempotent on a frozen stream —
any two runs of the tailing loop from a freshly reset buffer over the
same finite list of lines pass the same buffers to the parser, hence
produce the same ordered list of parsed entries. -/
theorem c9_segmentation_deterministic (lines : List String)
    (out1 out2 : List (List String))
    (h1 : TailRun [] lines out1) (h2 : TailRun [] lines out2) :
    out1.map extractFields = out2.map extractFields := by
  rw [tailRun_det h1 h2]

/-- Witness for C9: a concrete one-line run, fed twice. -/
theorem c9_segmentation_deterministic_witness :
    ([[("SELECT 1;")]] : List (List String)).map extractFields
      = [[("SELECT 1;")]].map extractFields := by
  have hstep : TailStep [] ("SELECT 1;") [] [[("SELECT 1;")]] :=
    TailStep.appendEnds [] ("SELECT 1;") (by decide) (by decide) (by decide)
  have hrun : TailRun [] [("SELECT 1;")] [[("SELECT 1;")]] :=
    TailRun.step [] ("SELECT 1;") [] [] [[("SELECT 1;")]] []
      hstep (TailRun.done [])
  exact c9_segmentation_deterministic [("SELECT 1;")] _ _ hrun hrun

/-- C10: the tailing loop never passes an empty buffer to
`processSlowQuery`: the start-marker close and the flush are guarded by
non-emptiness checks, and the end-marker buffer always contains the
current line. -/
theorem c10_no_empty_entry (lines : List String) (e : List String)
    (h : e ∈ (tailSlowLogRun [] lines).2) : e ≠ [] :=
  tailSlowLogRun_out_nonempty lines [] e h

/-- Witness for C10 on a concrete one-line stream. -/
theorem c10_no_empty_entry_witness : ([("abc")] : List String) ≠ [] :=
  c10_no_empty_entry [("abc")] [("abc")] (by decide)
